import Mathlib

/-!
Shallow embedding of the multi-region failover manager
(`multi_region_failover.py`) and of the cascade-risk assessor
(`outage_prevention_system.py`).

Modelling conventions:
* Python floats become `ℚ`; `float('inf')` (used only for the
  `response_time` of a region whose whole health check raised) becomes
  `Option ℚ` with `none` standing for infinity.
* AWS collaborator calls (probes, Route 53, CloudFront, autoscaling)
  are effectful; their observable outcomes are passed in as booleans /
  `Except` values, step 4's verification polling is driven by the
  sequence of health-check observations it would see (each poll
  rewriting the target's health entry, as in the source), and the
  calls themselves are recorded in an `Action` trace, so theorems can
  speak about which collaborators an operation invoked.
* Timestamps, durations and log lines are not modelled: no claim
  depends on them.
-/

namespace AwsDnsOutage

/-- `FailoverStatus` enum of `multi_region_failover.py`. -/
inductive FailoverStatus where
  | active
  | standby
  | failingOver
  | failed
deriving DecidableEq, Repr

/-- `RegionHealth` dataclass (the `last_check` timestamp is omitted;
`response_time = none` models `float('inf')`). -/
structure RegionHealth where
  region : String
  status : FailoverStatus
  health_score : ℚ
  services_healthy : ℕ
  services_total : ℕ
  response_time : Option ℚ
deriving DecidableEq, Repr

/-- `FailoverEvent` dataclass (timestamp and duration omitted). -/
structure FailoverEvent where
  event_id : String
  from_region : String
  to_region : String
  trigger_reason : String
  success : Bool
  rollback_performed : Bool
deriving DecidableEq, Repr

/-- Constructor configuration of `MultiRegionFailoverManager.__init__`:
primary region, secondary regions, and the three thresholds set in the
constructor (defaults 0.7, 5.0 s and 3). -/
structure Config where
  primary_region : String
  secondary_regions : List String
  health_threshold : ℚ
  response_time_threshold : ℚ
  consecutive_failures_threshold : ℕ
deriving DecidableEq, Repr

/-- `self.all_regions = [primary_region] + self.secondary_regions`. -/
def Config.all_regions (cfg : Config) : List String :=
  cfg.primary_region :: cfg.secondary_regions

/-- Mutable state of a `MultiRegionFailoverManager` instance, together
with the `consecutive_failures` dictionary local to `monitor_loop`. -/
structure MState where
  region_health : String → RegionHealth
  consecutive_failures : String → ℕ
  current_active_region : String
  failover_in_progress : Bool
  failover_events : List FailoverEvent
  is_monitoring : Bool

/-- Outcome of one subsystem probe as seen at the boundary of a
`_check_*_health` helper: the computed boolean, or a raised transport
error (the string is the exception message). -/
inductive ProbeOutcome where
  | ok (b : Bool)
  | error (msg : String)
deriving DecidableEq, Repr

/-- Each `_check_*_health` helper wraps its body in `try/except` and
returns `False` on any exception, so a transport error counts as an
unhealthy subsystem and never propagates. -/
def subsystem_healthy : ProbeOutcome → Bool
  | .ok b => b
  | .error _ => false

/-- Inputs consumed by one `check_region_health` call: the four
subsystem probe outcomes (ELB, EC2, RDS, ECS), the measured elapsed
time, and whether the surrounding `try` body itself completed (`false`
models the outer `except` branch, e.g. an unknown region key). -/
structure CheckInput where
  outer_ok : Bool
  elb : ProbeOutcome
  ec2 : ProbeOutcome
  rds : ProbeOutcome
  ecs : ProbeOutcome
  elapsed : ℚ
deriving DecidableEq, Repr

/-- Number of healthy subsystems among the four checks. -/
def healthyCount (inp : CheckInput) : ℕ :=
  (cond (subsystem_healthy inp.elb) 1 0) + (cond (subsystem_healthy inp.ec2) 1 0) +
    (cond (subsystem_healthy inp.rds) 1 0) + (cond (subsystem_healthy inp.ecs) 1 0)

/-- `response_time > threshold` on the `Option ℚ` model of floats,
where `none` is `float('inf')` and exceeds every bound. -/
def rtExceeds (rt : Option ℚ) (bound : ℚ) : Bool :=
  match rt with
  | none => true
  | some q => decide (bound < q)

/-- `check_region_health`: runs the four subsystem checks, computes
`health_score = services_healthy / services_total` (`services_total`
is always 4 when the body completes), derives the new status from the
previous status, and returns the new `RegionHealth`.  The outer
`except` branch returns a `FAILED` record with score 0 and no
checkable subsystems. -/
def check_region_health (cfg : Config) (current_active : String)
    (prev_status : FailoverStatus) (region : String) (inp : CheckInput) : RegionHealth :=
  if inp.outer_ok then
    let services_healthy := healthyCount inp
    let services_total : ℕ := 4
    let health_score : ℚ :=
      if 0 < services_total then mkRat services_healthy services_total else 0
    let response_time : Option ℚ := some inp.elapsed
    let new_status :=
      if health_score < cfg.health_threshold ∨ rtExceeds response_time cfg.response_time_threshold then
        (if prev_status = .active then FailoverStatus.failingOver else .failed)
      else
        (if region = current_active then FailoverStatus.active else .standby)
    ⟨region, new_status, health_score, services_healthy, services_total, response_time⟩
  else
    ⟨region, .failed, 0, 0, 0, none⟩

/-- Lexicographic comparison used by Python when sorting the candidate
list with key `(-health_score, response_time)`: `a` sorts no later
than `b`. -/
def selKeyLE (s : MState) (a b : String) : Bool :=
  decide ((s.region_health b).health_score < (s.region_health a).health_score) ||
    (decide ((s.region_health a).health_score = (s.region_health b).health_score) &&
      rtLE (s.region_health a).response_time (s.region_health b).response_time)
where
  /-- `≤` on response times with `none` as infinity. -/
  rtLE : Option ℚ → Option ℚ → Bool
    | some x, some y => decide (x ≤ y)
    | some _, none => true
    | none, some _ => false
    | none, none => true

/-- The `available_regions` list of `select_best_failover_region`:
secondary regions whose status is `STANDBY` or `ACTIVE` and whose
health score is at least the health threshold. -/
def availableRegions (cfg : Config) (s : MState) : List String :=
  cfg.secondary_regions.filter (fun r =>
    ((s.region_health r).status = .standby ∨ (s.region_health r).status = .active) ∧
      cfg.health_threshold ≤ (s.region_health r).health_score)

/-- `select_best_failover_region`: filter the secondary regions, sort
by health score descending then response time ascending (Python's
`list.sort` is stable; `List.insertionSort` with the non-strict key
order is the same stable sort), and return the first, or `None` when
the candidate list is empty. -/
def select_best_failover_region (cfg : Config) (s : MState) : Option String :=
  (List.insertionSort (fun a b => selKeyLE s a b = true) (availableRegions cfg s)).head?

/-- Collaborator calls made during an orchestration, as recorded in
the action trace. -/
inductive Action where
  | updateDnsRecords (from_region to_region : String)
  | updateCloudfrontOrigins (from_region to_region : String)
  | scaleUpTargetRegion (region : String)
  | verifyTargetRegion (region : String)
deriving DecidableEq, Repr

/-- Collaborator outcomes for one `perform_failover` call: the
booleans steps 1–3 and the two rollback steps return after their own
`try/except`, plus the sequence of `check_region_health` observations
made by step 4's verification poll loop (`_verify_target_region`
computes its own boolean from those polls and rewrites the target's
health entry on every poll, so it is not a free boolean). -/
structure StepResults where
  dns : Bool
  cloudfront : Bool
  scaling : Bool
  verification_polls : List CheckInput
  rollback_dns : Bool
  rollback_cloudfront : Bool
deriving DecidableEq, Repr

/-- `response_time < threshold` on the `Option ℚ` model of floats
(strict, as in `_verify_target_region`'s readiness test); `none`
(infinity) never passes. -/
def rtBelow (rt : Option ℚ) (bound : ℚ) : Bool :=
  match rt with
  | none => false
  | some q => decide (q < bound)

/-- `_verify_target_region`: polls `check_region_health` for the
target region at a fixed interval, returning `True` as soon as a poll
reports health score at least the threshold and response time
strictly below the response-time threshold, and `False` when the
bounded timeout elapses first.  Every poll rewrites the target's
entry in `self.region_health`.  `polls` is the sequence of check
inputs observed by the successive iterations that fit in the timeout
window (the 300 s / 30 s bound caps its length in the source; no
claim depends on that cap); an exhausted list is the timeout. -/
def verify_target_region (cfg : Config) (s : MState) (region : String) :
    List CheckInput → Bool × MState
  | [] => (false, s)
  | inp :: rest =>
    let rh := check_region_health cfg s.current_active_region
      (s.region_health region).status region inp
    let s1 := { s with
      region_health := fun x => if x = region then rh else s.region_health x }
    if cfg.health_threshold ≤ rh.health_score ∧
        rtBelow rh.response_time cfg.response_time_threshold = true then
      (true, s1)
    else
      verify_target_region cfg s1 region rest

/-- Overwrite the status of one region in the health map, as the
assignments `self.region_health[r].status = ...` do. -/
def setStatus (rh : String → RegionHealth) (region : String)
    (st : FailoverStatus) : String → RegionHealth :=
  fun x => if x = region then { rh region with status := st } else rh x

/-- `_rollback_failover`: re-issues the DNS and CloudFront updates in
the reverse direction (and nothing else); on success restores the
original region as active with status `ACTIVE`. Returns the success
flag, the new state and the collaborator calls made. -/
def rollback_failover (s : MState) (failed_region original_region : String)
    (r : StepResults) : Bool × MState × List Action :=
  let acts : List Action :=
    [.updateDnsRecords failed_region original_region,
     .updateCloudfrontOrigins failed_region original_region]
  if r.rollback_dns && r.rollback_cloudfront then
    (true,
     { s with current_active_region := original_region,
              region_health := setStatus s.region_health original_region .active },
     acts)
  else
    (false, s, acts)

/-- Entering `perform_failover` past the guard sets
`self.failover_in_progress = True`. -/
def enterFailover (s : MState) : MState :=
  { s with failover_in_progress := true }

/-- Body of `perform_failover` after the in-progress guard: runs all
four steps unconditionally in order (steps 1–3 touch only AWS; step
4's verification poll rewrites the target's health entry), commits or
rolls back on the state verification left behind, appends exactly one
`FailoverEvent`, and clears the in-progress flag (`finally`). -/
def finishFailover (cfg : Config) (s : MState)
    (from_region to_region reason event_id : String)
    (r : StepResults) : Bool × MState × List Action :=
  let vres := verify_target_region cfg s to_region r.verification_polls
  let success := r.dns && r.cloudfront && r.scaling && vres.1
  let baseActs : List Action :=
    [.updateDnsRecords from_region to_region,
     .updateCloudfrontOrigins from_region to_region,
     .scaleUpTargetRegion to_region,
     .verifyTargetRegion to_region]
  let committed :=
    if success then
      ({ vres.2 with current_active_region := to_region,
                     region_health :=
                       setStatus (setStatus vres.2.region_health to_region .active)
                         from_region .failed },
       baseActs)
    else
      let rb := rollback_failover vres.2 to_region from_region r
      (rb.2.1, baseActs ++ rb.2.2)
  let ev : FailoverEvent :=
    ⟨event_id, from_region, to_region, reason, success, !success⟩
  (success,
   { committed.1 with failover_events := committed.1.failover_events ++ [ev],
                      failover_in_progress := false },
   committed.2)

/-- `perform_failover`: skipped (no steps, no event, state unchanged)
when a failover is already in progress, otherwise sets the in-progress
flag, orchestrates, records one event and clears the flag. -/
def perform_failover (cfg : Config) (s : MState)
    (from_region to_region reason event_id : String)
    (r : StepResults) : Bool × MState × List Action :=
  if s.failover_in_progress then (false, s, [])
  else finishFailover cfg (enterFailover s) from_region to_region reason event_id r

/-- One region's slice of the `monitor_loop` health pass: refresh its
`RegionHealth` via `check_region_health` and update its consecutive
failure counter (increment when the new score is below the threshold,
reset to 0 otherwise). -/
def updateOneRegion (cfg : Config) (inputs : String → CheckInput)
    (st : MState) (region : String) : MState :=
  let rh := check_region_health cfg st.current_active_region
    (st.region_health region).status region (inputs region)
  let newConsec : ℕ :=
    if rh.health_score < cfg.health_threshold then st.consecutive_failures region + 1 else 0
  { st with
    region_health := fun x => if x = region then rh else st.region_health x,
    consecutive_failures := fun x =>
      if x = region then newConsec else st.consecutive_failures x }

/-- The `for region in self.all_regions` health pass of one
`monitor_loop` iteration. -/
def updateAllRegions (cfg : Config) (s : MState) (inputs : String → CheckInput) : MState :=
  cfg.all_regions.foldl (fun st r => updateOneRegion cfg inputs st r) s

/-- Observable outcome of one `monitor_loop` iteration. -/
structure TickResult where
  state : MState
  triggered : Bool
  target : Option String
  outcome : Option Bool
  actions : List Action

/-- One iteration of the `while self.is_monitoring` body of
`monitor_loop`: refresh all regions, then — exactly when the active
region's consecutive failure count has reached the threshold or its
fresh health score is below the health threshold — select a failover
target and, if one exists, perform the failover, resetting the active
region's counter on success. -/
def monitor_loop_tick (cfg : Config) (s : MState) (inputs : String → CheckInput)
    (reason event_id : String) (r : StepResults) : TickResult :=
  let s1 := updateAllRegions cfg s inputs
  let active := s1.current_active_region
  if cfg.consecutive_failures_threshold ≤ s1.consecutive_failures active ∨
      (s1.region_health active).health_score < cfg.health_threshold then
    match select_best_failover_region cfg s1 with
    | some target =>
      let res := perform_failover cfg s1 active target reason event_id r
      let s3 :=
        if res.1 then
          { res.2.1 with consecutive_failures :=
              fun x => if x = active then 0 else res.2.1.consecutive_failures x }
        else res.2.1
      ⟨s3, true, some target, some res.1, res.2.2⟩
    | none => ⟨s1, true, none, none, []⟩
  else ⟨s1, false, none, none, []⟩

/-- The `recent_failover_events` field of `get_status`:
`self.failover_events[-10:]`, the last at most ten stored events. -/
def recent_failover_events (s : MState) : List FailoverEvent :=
  s.failover_events.drop (s.failover_events.length - 10)

/-!  Cascade-risk assessor of `outage_prevention_system.py`. -/

/-- `DNSHealthCheck` dataclass (timestamp omitted). -/
structure DNSHealthCheck where
  endpoint : String
  service : String
  region : String
  resolution_success : Bool
  response_time : ℚ
deriving DecidableEq, Repr

/-- `CascadeRisk` dataclass. -/
structure CascadeRisk where
  service : String
  region : String
  dependency_services : List String
  risk_score : ℚ
  potential_impact : String
  mitigation_actions : List String
deriving DecidableEq, Repr

/-- The fields of an `OutageAlert` that the cascade-risk path fills
(ids, timestamps and affected endpoints omitted). -/
structure OutageAlert where
  severity : String
  alert_type : String
  service : String
  region : String
  message : String
  predicted_impact : String
  recommended_actions : List String
deriving DecidableEq, Repr

/-- The static `self.service_dependencies` mapping
(`dict.get(service, [])` semantics: unknown services map to `[]`). -/
def service_dependencies : String → List String
  | "dynamodb" => ["lambda", "ecs", "ec2", "rds"]
  | "rds" => ["lambda", "ecs", "ec2"]
  | "lambda" => ["dynamodb", "rds", "s3"]
  | "ecs" => ["dynamodb", "rds", "elbv2"]
  | "ec2" => ["dynamodb", "rds"]
  | "elbv2" => ["ec2", "ecs"]
  | _ => []

/-- `_assess_cascade_risk`: risk score is
`min(1.0, 0.3 * |failed checks| + 0.4 * |dependents| + criticality)`
with criticality 0.8 for `dynamodb` and 0.5 otherwise; the impact
string and the mitigation-actions list are derived as in the source.
The assessor takes no region state and returns a fresh `CascadeRisk`,
so it cannot mutate any region's `FailoverStatus`. -/
def assess_cascade_risk (service region : String)
    (failed_checks : List DNSHealthCheck) : CascadeRisk :=
  let dependent_services := service_dependencies service
  let failure_score : ℚ := (failed_checks.length : ℚ) * (3 / 10)
  let dependency_score : ℚ := (dependent_services.length : ℚ) * (4 / 10)
  let criticality_score : ℚ := if service = "dynamodb" then 8 / 10 else 5 / 10
  let risk_score := min 1 (failure_score + dependency_score + criticality_score)
  let impact :=
    if 8 / 10 < risk_score then "Critical - Multi-service cascade failure likely"
    else if 6 / 10 < risk_score then "High - Significant service disruption expected"
    else if 4 / 10 < risk_score then "Medium - Limited service impact"
    else "Low - Minimal cascade risk"
  let actions :=
    ["Monitor dependent services: " ++ String.intercalate ", " dependent_services,
     "Prepare failover procedures",
     "Scale up healthy regions",
     "Implement circuit breakers"]
  let actions :=
    if service = "dynamodb" then
      actions ++
        ["Verify DynamoDB DNS records immediately",
         "Check internal DNS management system",
         "Prepare for region-wide service impact"]
    else actions
  ⟨service, region, dependent_services, risk_score, impact, actions⟩

/-- The cascade-risk slice of `analyze_dns_failures` for one grouped
`(service, region)` bucket: compute the failed checks, assess the
risk, and emit a high-cascade-risk alert exactly when the risk score
exceeds 0.7. -/
def cascade_alert_for (service region : String)
    (checks : List DNSHealthCheck) : Option OutageAlert :=
  let failed_checks := checks.filter (fun c => !c.resolution_success)
  let cascade_risk := assess_cascade_risk service region failed_checks
  if 7 / 10 < cascade_risk.risk_score then
    some ⟨"high", "cascade_risk", service, region,
      "High cascade failure risk detected for " ++ service ++ " in " ++ region,
      cascade_risk.potential_impact, cascade_risk.mitigation_actions⟩
  else none

/-!  Definitions following the spec's words (not the source), used
only to state refinement-style counterexamples. -/

/-- Modelled from the spec: §7's `NoHealthyTargetError`, the error the
spec says candidate selection raises when the candidate set is empty.
No such exception exists anywhere in the source. -/
inductive NoHealthyTargetError where
  | noEligibleCandidate
deriving DecidableEq, Repr

instance : DecidableEq (Except NoHealthyTargetError String) := fun a b =>
  match a, b with
  | .ok x, .ok y => if h : x = y then isTrue (by rw [h]) else isFalse (by simp [h])
  | .error x, .error y => isTrue (by cases x; cases y; rfl)
  | .ok _, .error _ => isFalse (by simp)
  | .error _, .ok _ => isFalse (by simp)

/-- Modelled from the spec: candidate selection as claim C4 words it —
identical filtering and ordering, but *raising* `NoHealthyTargetError`
(modelled as `Except.error`) when the candidate set is empty, instead
of the source's `return None`. -/
def select_best_failover_region_raising (cfg : Config) (s : MState) :
    Except NoHealthyTargetError String :=
  match select_best_failover_region cfg s with
  | some r => .ok r
  | none => .error .noEligibleCandidate

/-- Modelled from the spec: candidate selection as claim C2 words it —
the candidate set is *all* regions (not only the secondary ones) whose
status is `STANDBY` or `ACTIVE` and whose health score reaches the
threshold, sorted by the same key. -/
def select_best_failover_region_allRegions (cfg : Config) (s : MState) : Option String :=
  (List.insertionSort (fun a b => selKeyLE s a b = true)
    (cfg.all_regions.filter (fun r =>
      ((s.region_health r).status = .standby ∨ (s.region_health r).status = .active) ∧
        cfg.health_threshold ≤ (s.region_health r).health_score))).head?

/-!  Concrete fixtures used by witnesses and counterexamples. -/

/-- The constructor defaults: primary `us-east-1`, secondaries
`us-west-2` and `eu-west-1`, thresholds 0.7 / 5.0 s / 3 (rationals are
written with `mkRat`, so that concrete runs reduce in the kernel;
`mkRat a b = a / b`). -/
def cfg0 : Config := ⟨"us-east-1", ["us-west-2", "eu-west-1"], mkRat 7 10, mkRat 5 1, 3⟩

/-- The per-region record `__init__` installs: score 1.0, no services
counted yet, response time 0, `ACTIVE` for the primary and `STANDBY`
otherwise. -/
def initRegionHealth (cfg : Config) (r : String) : RegionHealth :=
  ⟨r, if r = cfg.primary_region then .active else .standby, 1, 0, 0, some 0⟩

/-- Manager state straight after `__init__` (with `monitor_loop`'s
fresh `consecutive_failures` dictionary). -/
def initState (cfg : Config) : MState :=
  { region_health := initRegionHealth cfg
    consecutive_failures := fun _ => 0
    current_active_region := cfg.primary_region
    failover_in_progress := false
    failover_events := []
    is_monitoring := true }

/-- A check in which all four subsystems are healthy and the probe is
fast. -/
def okInput : CheckInput := ⟨true, .ok true, .ok true, .ok true, .ok true, mkRat 1 10⟩

/-- A check in which all four subsystems report unhealthy. -/
def badInput : CheckInput := ⟨true, .ok false, .ok false, .ok false, .ok false, mkRat 1 10⟩

/-- A check in which all four subsystems are healthy but the probe
took 10 s, above the 5 s response-time threshold. -/
def slowInput : CheckInput := ⟨true, .ok true, .ok true, .ok true, .ok true, mkRat 10 1⟩

/-- Collaborator outcomes in which steps 1–3 and both rollback steps
succeed and the first verification poll finds the target healthy and
fast, so step 4 succeeds. -/
def allOkSteps : StepResults := ⟨true, true, true, [okInput], true, true⟩

/-- Collaborator outcomes in which steps 1–3 succeed but the single
verification poll that fits in the timeout window finds the target
unhealthy, so step 4 fails; both rollback steps succeed. -/
def verifyFailSteps : StepResults := ⟨true, true, true, [badInput], true, true⟩

/-- The `RegionHealth` that the health pass of one tick computes for a
region, expressed on the pre-tick state: `check_region_health` sees
the pre-tick active region and the region's own pre-tick status. -/
def freshHealth (cfg : Config) (s : MState) (inputs : String → CheckInput)
    (r : String) : RegionHealth :=
  check_region_health cfg s.current_active_region (s.region_health r).status r (inputs r)

/-- The consecutive-failure counter value the health pass of one tick
assigns to a region: reset to 0 by a healthy check, incremented by 1
by an unhealthy one. -/
def freshConsec (cfg : Config) (s : MState) (inputs : String → CheckInput)
    (r : String) : ℕ :=
  if (freshHealth cfg s inputs r).health_score < cfg.health_threshold then
    s.consecutive_failures r + 1
  else 0

/-- Is an action a capacity scale-up?  Used to state that rollback
never reverses the step-3 scale-up. -/
def isScaleAction : Action → Bool
  | .scaleUpTargetRegion _ => true
  | _ => false

/-- Test harness: run `perform_failover` from primary to first
secondary `n` times in a row, all steps succeeding. -/
def iterateFailovers : ℕ → MState → MState
  | 0, s => s
  | n + 1, s =>
    iterateFailovers n
      (perform_failover cfg0 s "us-east-1" "us-west-2" "bench" "e" allOkSteps).2.1

/-- Per-tick inputs: active region slow but fully healthy, all other
regions healthy and fast. -/
def slowActiveInputs : String → CheckInput :=
  fun r => if r = "us-east-1" then slowInput else okInput

/-- Per-tick inputs: active region unhealthy, all other regions
healthy. -/
def badActiveInputs : String → CheckInput :=
  fun r => if r = "us-east-1" then badInput else okInput

/-- A state in which the primary is a healthy `STANDBY` (the active
region moved to `us-west-2`, which is now degraded) and the other
secondary is down: the claimed all-regions candidate set is
`[us-east-1]`, the source's secondary-only candidate set is empty. -/
def standbyPrimaryState : MState :=
  { initState cfg0 with
    current_active_region := "us-west-2"
    region_health := fun r =>
      if r = "us-east-1" then ⟨r, .standby, 1, 4, 4, some 0⟩
      else if r = "us-west-2" then ⟨r, .failingOver, 0, 0, 4, some 0⟩
      else ⟨r, .failed, 0, 0, 4, some 0⟩ }

/-- A state in which the active primary has already been marked
`FAILING_OVER` by `check_region_health` (the usual situation when
`perform_failover` is reached from the monitor loop). -/
def failingOverPrimaryState : MState :=
  { initState cfg0 with
    region_health := fun r =>
      if r = "us-east-1" then ⟨r, .failingOver, 0, 0, 4, some 0⟩
      else initRegionHealth cfg0 r }

/-- Per-tick inputs: every region reports all four subsystems
unhealthy (health score 0), so no failover candidate exists. -/
def allBadInputs : String → CheckInput := fun _ => badInput

/-- A state with a failover already in flight. -/
def busyState : MState := { initState cfg0 with failover_in_progress := true }

/-- Configuration for the spec's tie-break scenario: secondaries `B`
and `C`. -/
def tieCfg : Config := ⟨"A", ["B", "C"], mkRat 7 10, mkRat 5 1, 3⟩

/-- The spec's tie-break scenario: `B` (health 0.9, latency 0.2 s) and
`C` (health 0.9, latency 0.5 s) both standby, active region `A`
degraded. -/
def tieState : MState :=
  { region_health := fun r =>
      if r = "B" then ⟨r, .standby, mkRat 9 10, 4, 4, some (mkRat 2 10)⟩
      else if r = "C" then ⟨r, .standby, mkRat 9 10, 4, 4, some (mkRat 5 10)⟩
      else ⟨r, .failingOver, 0, 0, 4, some 0⟩
    consecutive_failures := fun _ => 0
    current_active_region := "A"
    failover_in_progress := false
    failover_events := []
    is_monitoring := true }

/-- A state whose active primary has already accumulated 2
consecutive failures. -/
def twoFailuresState : MState :=
  { initState cfg0 with
    consecutive_failures := fun r => if r = "us-east-1" then 2 else 0 }

/-!  Characterization of the health pass (`updateAllRegions`). -/

lemma updateOneRegion_current_active (cfg : Config) (inputs : String → CheckInput)
    (st : MState) (a : String) :
    (updateOneRegion cfg inputs st a).current_active_region = st.current_active_region := rfl

lemma foldl_update_current_active (cfg : Config) (inputs : String → CheckInput)
    (l : List String) (st : MState) :
    (l.foldl (fun st r => updateOneRegion cfg inputs st r) st).current_active_region
      = st.current_active_region := by
  induction l generalizing st with
  | nil => rfl
  | cons a t ih => simpa [List.foldl] using ih (updateOneRegion cfg inputs st a)

lemma foldl_update_in_progress (cfg : Config) (inputs : String → CheckInput)
    (l : List String) (st : MState) :
    (l.foldl (fun st r => updateOneRegion cfg inputs st r) st).failover_in_progress
      = st.failover_in_progress := by
  induction l generalizing st with
  | nil => rfl
  | cons a t ih => simpa [List.foldl] using ih (updateOneRegion cfg inputs st a)

lemma foldl_update_events (cfg : Config) (inputs : String → CheckInput)
    (l : List String) (st : MState) :
    (l.foldl (fun st r => updateOneRegion cfg inputs st r) st).failover_events
      = st.failover_events := by
  induction l generalizing st with
  | nil => rfl
  | cons a t ih => simpa [List.foldl] using ih (updateOneRegion cfg inputs st a)

lemma foldl_update_is_monitoring (cfg : Config) (inputs : String → CheckInput)
    (l : List String) (st : MState) :
    (l.foldl (fun st r => updateOneRegion cfg inputs st r) st).is_monitoring
      = st.is_monitoring := by
  induction l generalizing st with
  | nil => rfl
  | cons a t ih => simpa [List.foldl] using ih (updateOneRegion cfg inputs st a)

lemma foldl_update_not_mem (cfg : Config) (inputs : String → CheckInput)
    (l : List String) (st : MState) (r : String) (h : r ∉ l) :
    (l.foldl (fun st r => updateOneRegion cfg inputs st r) st).region_health r
        = st.region_health r ∧
    (l.foldl (fun st r => updateOneRegion cfg inputs st r) st).consecutive_failures r
        = st.consecutive_failures r := by
  induction l generalizing st with
  | nil => exact ⟨rfl, rfl⟩
  | cons a t ih =>
    have hra : r ≠ a := fun hra => h (hra ▸ List.mem_cons_self a t)
    have ht : r ∉ t := fun hm => h (List.mem_cons_of_mem a hm)
    have := ih (updateOneRegion cfg inputs st a) ht
    simpa [List.foldl, updateOneRegion, hra] using this

lemma foldl_update_mem (cfg : Config) (inputs : String → CheckInput)
    (l : List String) (st : MState) (r : String) (h : r ∈ l) (hnd : l.Nodup) :
    (l.foldl (fun st r => updateOneRegion cfg inputs st r) st).region_health r
        = freshHealth cfg st inputs r ∧
    (l.foldl (fun st r => updateOneRegion cfg inputs st r) st).consecutive_failures r
        = freshConsec cfg st inputs r := by
  induction l generalizing st with
  | nil => cases h
  | cons a t ih =>
    rcases List.nodup_cons.mp hnd with ⟨hat, hndt⟩
    rcases List.mem_cons.mp h with hr | hr
    · subst hr
      have hnt : r ∉ t := hat
      have := foldl_update_not_mem cfg inputs t (updateOneRegion cfg inputs st r) r hnt
      refine ⟨?_, ?_⟩
      · rw [List.foldl_cons, this.1]
        simp [updateOneRegion, freshHealth]
      · rw [List.foldl_cons, this.2]
        simp [updateOneRegion, freshConsec, freshHealth]
    · have hra : r ≠ a := fun hra => hat (hra ▸ hr)
      have hstep := ih (updateOneRegion cfg inputs st a) hr hndt
      rw [List.foldl_cons] at *
      refine ⟨?_, ?_⟩
      · rw [hstep.1]
        simp [freshHealth, updateOneRegion, hra]
      · rw [hstep.2]
        simp [freshConsec, freshHealth, updateOneRegion, hra]

lemma updateAllRegions_region_health (cfg : Config) (s : MState)
    (inputs : String → CheckInput) (r : String) (h : r ∈ cfg.all_regions)
    (hnd : cfg.all_regions.Nodup) :
    (updateAllRegions cfg s inputs).region_health r = freshHealth cfg s inputs r :=
  (foldl_update_mem cfg inputs cfg.all_regions s r h hnd).1

lemma updateAllRegions_consec (cfg : Config) (s : MState)
    (inputs : String → CheckInput) (r : String) (h : r ∈ cfg.all_regions)
    (hnd : cfg.all_regions.Nodup) :
    (updateAllRegions cfg s inputs).consecutive_failures r = freshConsec cfg s inputs r :=
  (foldl_update_mem cfg inputs cfg.all_regions s r h hnd).2

lemma updateAllRegions_current_active (cfg : Config) (s : MState)
    (inputs : String → CheckInput) :
    (updateAllRegions cfg s inputs).current_active_region = s.current_active_region :=
  foldl_update_current_active cfg inputs cfg.all_regions s

lemma updateAllRegions_events (cfg : Config) (s : MState)
    (inputs : String → CheckInput) :
    (updateAllRegions cfg s inputs).failover_events = s.failover_events :=
  foldl_update_events cfg inputs cfg.all_regions s

lemma updateAllRegions_is_monitoring (cfg : Config) (s : MState)
    (inputs : String → CheckInput) :
    (updateAllRegions cfg s inputs).is_monitoring = s.is_monitoring :=
  foldl_update_is_monitoring cfg inputs cfg.all_regions s

/-!  Order facts for the candidate-selection sort. -/

lemma rtLE_refl (x : Option ℚ) : selKeyLE.rtLE x x = true := by
  cases x <;> simp [selKeyLE.rtLE]

lemma rtLE_total (x y : Option ℚ) : selKeyLE.rtLE x y = true ∨ selKeyLE.rtLE y x = true := by
  cases x <;> cases y <;> (simp [selKeyLE.rtLE]; try exact le_total _ _)

lemma rtLE_trans {x y z : Option ℚ} (h1 : selKeyLE.rtLE x y = true)
    (h2 : selKeyLE.rtLE y z = true) : selKeyLE.rtLE x z = true := by
  cases x <;> cases y <;> cases z <;> (simp_all [selKeyLE.rtLE]; try exact le_trans h1 h2)

lemma selKeyLE_iff (s : MState) (a b : String) :
    selKeyLE s a b = true ↔
      ((s.region_health b).health_score < (s.region_health a).health_score ∨
        ((s.region_health a).health_score = (s.region_health b).health_score ∧
          selKeyLE.rtLE (s.region_health a).response_time (s.region_health b).response_time
            = true)) := by
  simp [selKeyLE]

lemma selKeyLE_total (s : MState) (a b : String) :
    selKeyLE s a b = true ∨ selKeyLE s b a = true := by
  rw [selKeyLE_iff, selKeyLE_iff]
  rcases lt_trichotomy (s.region_health a).health_score (s.region_health b).health_score with
    h | h | h
  · exact Or.inr (Or.inl h)
  · rcases rtLE_total (s.region_health a).response_time (s.region_health b).response_time with
      hr | hr
    · exact Or.inl (Or.inr ⟨h, hr⟩)
    · exact Or.inr (Or.inr ⟨h.symm, hr⟩)
  · exact Or.inl (Or.inl h)

lemma selKeyLE_trans (s : MState) (a b c : String) (h1 : selKeyLE s a b = true)
    (h2 : selKeyLE s b c = true) : selKeyLE s a c = true := by
  rw [selKeyLE_iff] at *
  rcases h1 with h1 | ⟨h1e, h1r⟩
  · rcases h2 with h2 | ⟨h2e, h2r⟩
    · exact Or.inl (lt_trans h2 h1)
    · exact Or.inl (h2e ▸ h1)
  · rcases h2 with h2 | ⟨h2e, h2r⟩
    · exact Or.inl (h1e ▸ h2)
    · exact Or.inr ⟨h1e.trans h2e, rtLE_trans h1r h2r⟩

lemma sorted_head_rel {α : Type} {r : α → α → Prop} {l : List α} {h x : α}
    (hs : List.Sorted r l) (hh : l.head? = some h) (hx : x ∈ l) : x = h ∨ r h x := by
  cases l with
  | nil => cases hx
  | cons a t =>
    have ha : a = h := by simpa using hh
    subst ha
    rcases List.mem_cons.mp hx with hx | hx
    · exact Or.inl hx
    · exact Or.inr (List.rel_of_sorted_cons hs x hx)

/-- The selected region is one of the filtered candidates. -/
lemma select_mem_available (cfg : Config) (s : MState) (r : String)
    (h : select_best_failover_region cfg s = some r) : r ∈ availableRegions cfg s := by
  have hmem : r ∈ List.insertionSort (fun a b => selKeyLE s a b = true)
      (availableRegions cfg s) := by
    unfold select_best_failover_region at h
    exact List.mem_of_mem_head? h
  exact ((List.perm_insertionSort _ _).mem_iff).mp hmem

/-- The selected region is optimal for the sort key among all
candidates: every other candidate has a strictly lower health score or
an equal health score and a response time at least as large. -/
lemma select_optimal (cfg : Config) (s : MState) (r : String)
    (h : select_best_failover_region cfg s = some r) :
    ∀ x ∈ availableRegions cfg s, selKeyLE s r x = true := by
  intro x hx
  have hsorted : List.Sorted (fun a b => selKeyLE s a b = true)
      (List.insertionSort (fun a b => selKeyLE s a b = true) (availableRegions cfg s)) := by
    haveI : IsTotal String (fun a b => selKeyLE s a b = true) := ⟨selKeyLE_total s⟩
    haveI : IsTrans String (fun a b => selKeyLE s a b = true) := ⟨selKeyLE_trans s⟩
    exact List.sorted_insertionSort _ _
  have hxs : x ∈ List.insertionSort (fun a b => selKeyLE s a b = true)
      (availableRegions cfg s) := ((List.perm_insertionSort _ _).mem_iff).mpr hx
  rcases sorted_head_rel hsorted h hxs with hxr | hxr
  · subst hxr
    rw [selKeyLE_iff]
    exact Or.inr ⟨rfl, rtLE_refl _⟩
  · exact hxr

/-!  Facts about `verify_target_region` and `perform_failover`. -/

lemma verify_target_region_events (cfg : Config) (s : MState) (reg : String)
    (polls : List CheckInput) :
    (verify_target_region cfg s reg polls).2.failover_events = s.failover_events := by
  induction polls generalizing s with
  | nil => rfl
  | cons p rest ih =>
    unfold verify_target_region
    dsimp only
    split
    · rfl
    · exact ih _

lemma verify_target_region_consec (cfg : Config) (s : MState) (reg : String)
    (polls : List CheckInput) :
    (verify_target_region cfg s reg polls).2.consecutive_failures
      = s.consecutive_failures := by
  induction polls generalizing s with
  | nil => rfl
  | cons p rest ih =>
    unfold verify_target_region
    dsimp only
    split
    · rfl
    · exact ih _

lemma verify_target_region_health_other (cfg : Config) (s : MState) (reg : String)
    (polls : List CheckInput) (x : String) (hx : x ≠ reg) :
    (verify_target_region cfg s reg polls).2.region_health x = s.region_health x := by
  induction polls generalizing s with
  | nil => rfl
  | cons p rest ih =>
    unfold verify_target_region
    dsimp only
    split
    · simp [hx]
    · rw [ih]
      simp [hx]

lemma enterFailover_consec (s : MState) :
    (enterFailover s).consecutive_failures = s.consecutive_failures := rfl

lemma enterFailover_events (s : MState) :
    (enterFailover s).failover_events = s.failover_events := rfl

lemma enterFailover_region_health (s : MState) :
    (enterFailover s).region_health = s.region_health := rfl

lemma rollback_failover_events (s : MState) (f o : String) (r : StepResults) :
    (rollback_failover s f o r).2.1.failover_events = s.failover_events := by
  unfold rollback_failover
  split <;> rfl

lemma rollback_failover_consec (s : MState) (f o : String) (r : StepResults) :
    (rollback_failover s f o r).2.1.consecutive_failures = s.consecutive_failures := by
  unfold rollback_failover
  split <;> rfl

lemma perform_failover_consec (cfg : Config) (s : MState) (f t reason eid : String)
    (r : StepResults) :
    (perform_failover cfg s f t reason eid r).2.1.consecutive_failures
      = s.consecutive_failures := by
  unfold perform_failover
  split
  · rfl
  · unfold finishFailover
    by_cases hs : (r.dns && r.cloudfront && r.scaling &&
        (verify_target_region cfg (enterFailover s) t r.verification_polls).1) = true <;>
      simp [hs, rollback_failover_consec, verify_target_region_consec, enterFailover_consec]

lemma perform_failover_events (cfg : Config) (s : MState) (f t reason eid : String)
    (r : StepResults) (h : s.failover_in_progress = false) :
    (perform_failover cfg s f t reason eid r).2.1.failover_events
      = s.failover_events
          ++ [⟨eid, f, t, reason,
                r.dns && r.cloudfront && r.scaling &&
                  (verify_target_region cfg (enterFailover s) t r.verification_polls).1,
                !(r.dns && r.cloudfront && r.scaling &&
                  (verify_target_region cfg (enterFailover s) t r.verification_polls).1)⟩] := by
  unfold perform_failover finishFailover
  by_cases hs : (r.dns && r.cloudfront && r.scaling &&
      (verify_target_region cfg (enterFailover s) t r.verification_polls).1) = true <;>
    simp [h, hs, rollback_failover_events, verify_target_region_events, enterFailover_events]

lemma perform_failover_success (cfg : Config) (s : MState) (f t reason eid : String)
    (r : StepResults) (h : s.failover_in_progress = false) :
    (perform_failover cfg s f t reason eid r).1
      = (r.dns && r.cloudfront && r.scaling &&
          (verify_target_region cfg (enterFailover s) t r.verification_polls).1) := by
  simp [perform_failover, h, finishFailover]

/-- The monitor tick enters its failover branch exactly when, after
the health pass, the active region's consecutive-failure count has
reached the threshold or its health score is below the health
threshold. -/
lemma tick_triggered (cfg : Config) (s : MState) (inputs : String → CheckInput)
    (reason eid : String) (r : StepResults) :
    (monitor_loop_tick cfg s inputs reason eid r).triggered = true ↔
      (cfg.consecutive_failures_threshold
          ≤ (updateAllRegions cfg s inputs).consecutive_failures
              (updateAllRegions cfg s inputs).current_active_region ∨
        ((updateAllRegions cfg s inputs).region_health
            (updateAllRegions cfg s inputs).current_active_region).health_score
          < cfg.health_threshold) := by
  unfold monitor_loop_tick
  dsimp only
  split
  · rename_i hcond
    split <;> simp [hcond]
  · rename_i hcond
    simp [hcond]

/-- Consecutive-failure counters after one tick: the health pass sets
each region's counter, and the only later change is the reset of the
active region's counter after a successful failover. -/
lemma tick_consec (cfg : Config) (s : MState) (inputs : String → CheckInput)
    (reason eid : String) (r : StepResults) (x : String) :
    (monitor_loop_tick cfg s inputs reason eid r).state.consecutive_failures x
      = if (monitor_loop_tick cfg s inputs reason eid r).outcome = some true ∧
            x = (updateAllRegions cfg s inputs).current_active_region
        then 0
        else (updateAllRegions cfg s inputs).consecutive_failures x := by
  unfold monitor_loop_tick
  dsimp only
  split
  · rename_i hcond
    split
    · rename_i target hsel
      by_cases hres : (perform_failover cfg (updateAllRegions cfg s inputs)
          (updateAllRegions cfg s inputs).current_active_region target reason eid r).1
            = true
      · simp [hres, perform_failover_consec]
      · simp [hres, perform_failover_consec]
    · simp
  · simp

/-!  Claim theorems. -/

/-- C5: the health evaluation returns a health score equal to the
number of healthy subsystem checks divided by the total number of
subsystem checks (0 when no subsystems were checkable); each probe
failure or transport error counts as an unhealthy subsystem
(`subsystem_healthy` maps both `.ok false` and `.error _` to
unhealthy); and no probe failure propagates out of the evaluation as
an exception — `check_region_health` is total, returning a
`RegionHealth` (never an error value) for every input, including the
outer-exception case. -/
theorem claim5_health_score (cfg : Config) (ca : String) (ps : FailoverStatus)
    (region : String) (inp : CheckInput) :
    (check_region_health cfg ca ps region inp).health_score
        = (if (check_region_health cfg ca ps region inp).services_total = 0 then 0
           else ((check_region_health cfg ca ps region inp).services_healthy : ℚ)
             / ((check_region_health cfg ca ps region inp).services_total : ℚ)) ∧
    (check_region_health cfg ca ps region inp).services_healthy
        = (if inp.outer_ok then healthyCount inp else 0) ∧
    (check_region_health cfg ca ps region inp).services_total
        = (if inp.outer_ok then 4 else 0) ∧
    (∀ msg : String, subsystem_healthy (.error msg) = false) ∧
    (∀ b : Bool, subsystem_healthy (.ok b) = b) := by
  refine ⟨?_, ?_, ?_, fun _ => rfl, fun _ => rfl⟩ <;>
    cases h : inp.outer_ok <;>
      simp [check_region_health, h, Rat.mkRat_eq_div]

/-- C9: the cascade-risk score equals the weighted sum
`0.3 * |failed endpoints| + 0.4 * |direct dependents| + criticality`
(criticality 0.8 for the foundational data-tier service `dynamodb`,
0.5 otherwise) clipped into [0, 1]; a high-cascade-risk alert carrying
the (non-empty) recommended-actions list is produced exactly when the
score exceeds 0.7; and the assessor is a pure function of the service,
region and failed checks — it takes no region state, so it cannot
mutate any region's `FailoverStatus`. -/
theorem claim9_cascade_risk (service region : String) (checks : List DNSHealthCheck) :
    (assess_cascade_risk service region
          (checks.filter (fun c => !c.resolution_success))).risk_score
        = min 1
            (((checks.filter (fun c => !c.resolution_success)).length : ℚ) * (3 / 10)
              + ((service_dependencies service).length : ℚ) * (4 / 10)
              + (if service = "dynamodb" then 8 / 10 else 5 / 10)) ∧
    0 ≤ (assess_cascade_risk service region
          (checks.filter (fun c => !c.resolution_success))).risk_score ∧
    (assess_cascade_risk service region
          (checks.filter (fun c => !c.resolution_success))).risk_score ≤ 1 ∧
    cascade_alert_for service region checks
        = (if 7 / 10 < (assess_cascade_risk service region
                (checks.filter (fun c => !c.resolution_success))).risk_score then
             some ⟨"high", "cascade_risk", service, region,
               "High cascade failure risk detected for " ++ service ++ " in " ++ region,
               (assess_cascade_risk service region
                 (checks.filter (fun c => !c.resolution_success))).potential_impact,
               (assess_cascade_risk service region
                 (checks.filter (fun c => !c.resolution_success))).mitigation_actions⟩
           else none) ∧
    (assess_cascade_risk service region
        (checks.filter (fun c => !c.resolution_success))).mitigation_actions ≠ [] := by
  refine ⟨rfl, ?_, ?_, rfl, ?_⟩
  · have h0 : (0 : ℚ) ≤
        ((checks.filter (fun c => !c.resolution_success)).length : ℚ) * (3 / 10)
          + ((service_dependencies service).length : ℚ) * (4 / 10)
          + (if service = "dynamodb" then 8 / 10 else 5 / 10) := by
      have h1 : (0 : ℚ) ≤
          ((checks.filter (fun c => !c.resolution_success)).length : ℚ) * (3 / 10) := by
        positivity
      have h2 : (0 : ℚ) ≤ ((service_dependencies service).length : ℚ) * (4 / 10) := by
        positivity
      have h3 : (0 : ℚ) ≤ (if service = "dynamodb" then (8 : ℚ) / 10 else 5 / 10) := by
        split <;> norm_num
      linarith
    simp only [assess_cascade_risk]
    exact le_min (by norm_num) h0
  · simp only [assess_cascade_risk]
    exact min_le_left _ _
  · simp only [assess_cascade_risk]
    split <;> simp

/-- C8: a trigger arriving while `failover_in_progress` is true is
skipped, not queued — the call returns `False` immediately with the
state unchanged (none of the four orchestration steps runs: the action
trace is empty; no event is appended; no status or active-region
pointer changes).  Otherwise the flag is true exactly for the duration
of the orchestration: the orchestration body runs on the state with
the flag set, and the returned state has the flag cleared again. -/
theorem claim8_mutual_exclusion (cfg : Config) (s : MState) (fromR toR reason eid : String)
    (r : StepResults) :
    (s.failover_in_progress = true →
      perform_failover cfg s fromR toR reason eid r = (false, s, [])) ∧
    (s.failover_in_progress = false →
      perform_failover cfg s fromR toR reason eid r
          = finishFailover cfg (enterFailover s) fromR toR reason eid r ∧
      (enterFailover s).failover_in_progress = true ∧
      (perform_failover cfg s fromR toR reason eid r).2.1.failover_in_progress = false) := by
  constructor
  · intro h
    simp [perform_failover, h]
  · intro h
    refine ⟨by simp [perform_failover, h], rfl, ?_⟩
    unfold perform_failover finishFailover
    by_cases hs : (r.dns && r.cloudfront && r.scaling &&
        (verify_target_region cfg (enterFailover s) toR r.verification_polls).1) = true <;>
      simp [h, hs]

/-- Witness for C8 at concrete inputs: a call on a busy state is the
identity skip, and a call on a free state ends with the flag
cleared. -/
theorem claim8_mutual_exclusion_witness :
    perform_failover cfg0 busyState "us-east-1" "us-west-2" "why" "e1" allOkSteps
        = (false, busyState, []) ∧
    (perform_failover cfg0 (initState cfg0) "us-east-1" "us-west-2" "why" "e1"
        allOkSteps).2.1.failover_in_progress = false := by
  refine ⟨(claim8_mutual_exclusion cfg0 busyState "us-east-1" "us-west-2" "why" "e1"
    allOkSteps).1 rfl, ?_⟩
  exact ((claim8_mutual_exclusion cfg0 (initState cfg0) "us-east-1" "us-west-2" "why" "e1"
    allOkSteps).2 rfl).2.2

/-- C7 (amended): every executed (non-skipped) failover attempt
appends exactly one `FailoverEvent` to the stored event list — its
success flag is the conjunction of the step-1–3 outcomes and the
verification poll's outcome, and its rollback flag is the negation —
while the stored list itself is unbounded; only the
`recent_failover_events` view of `get_status` is bounded — it holds
at most 10 events and is a suffix of the stored list, so it preserves
insertion order and drops the oldest entries first. -/
theorem claim7_event_log (cfg : Config) (s : MState) (fromR toR reason eid : String)
    (r : StepResults) (h : s.failover_in_progress = false) :
    (perform_failover cfg s fromR toR reason eid r).1
        = (r.dns && r.cloudfront && r.scaling &&
            (verify_target_region cfg (enterFailover s) toR r.verification_polls).1) ∧
    (perform_failover cfg s fromR toR reason eid r).2.1.failover_events
        = s.failover_events
            ++ [⟨eid, fromR, toR, reason,
                  (perform_failover cfg s fromR toR reason eid r).1,
                  !(perform_failover cfg s fromR toR reason eid r).1⟩] ∧
    (∀ t : MState, (recent_failover_events t).length ≤ 10 ∧
      recent_failover_events t <:+ t.failover_events) := by
  have hsucc := perform_failover_success cfg s fromR toR reason eid r h
  refine ⟨hsucc, ?_, fun t => ⟨?_, ?_⟩⟩
  · rw [hsucc]
    exact perform_failover_events cfg s fromR toR reason eid r h
  · rw [recent_failover_events, List.length_drop]
    omega
  · exact List.drop_suffix _ _

/-- Witness for C7 at concrete inputs. -/
theorem claim7_event_log_witness :
    (perform_failover cfg0 (initState cfg0) "us-east-1" "us-west-2" "why" "e1"
        allOkSteps).2.1.failover_events
      = [⟨"e1", "us-east-1", "us-west-2", "why", true, false⟩] ∧
    (recent_failover_events (initState cfg0)).length ≤ 10 := by
  have h := claim7_event_log cfg0 (initState cfg0) "us-east-1" "us-west-2" "why" "e1"
    allOkSteps rfl
  have hs : (perform_failover cfg0 (initState cfg0) "us-east-1" "us-west-2" "why" "e1"
      allOkSteps).1 = true := by decide
  refine ⟨?_, (h.2.2 (initState cfg0)).1⟩
  rw [h.2.1, hs]
  rfl

/-- Counterexample to C7 as stated: the stored event log is *not* a
bounded ring of at most 10 entries — after 11 executed attempts the
stored list holds 11 events; only the `get_status` view is cut to the
last 10. -/
theorem claim7_unbounded_counterexample :
    (iterateFailovers 11 (initState cfg0)).failover_events.length = 11 ∧
    ¬ ((iterateFailovers 11 (initState cfg0)).failover_events.length ≤ 10) ∧
    (recent_failover_events (iterateFailovers 11 (initState cfg0))).length = 10 := by
  decide

/-- C3 (amended): when orchestration fails and rollback succeeds, the
rollback re-issues only the traffic-routing (DNS) and CDN-origin
updates in the reverse direction — the attempt's only capacity action
remains the forward step-3 scale-up, which is never reversed; the
active-region pointer is (re)set to the source region; the source
region's status is set to `ACTIVE` (the source restores `ACTIVE`
unconditionally, which equals the pre-attempt status only when that
status was `ACTIVE`); apart from the source's status restore, the
health map is exactly what step 4's verification polling left behind
— in particular the target's entry was rewritten by the polls, and
every region other than the source and the target keeps its
pre-attempt entry; and the recorded event has `success = false` and
`rollback_performed = true`. -/
theorem claim3_rollback (cfg : Config) (s : MState) (fromR toR reason eid : String)
    (r : StepResults)
    (hbusy : s.failover_in_progress = false)
    (hfail : (r.dns && r.cloudfront && r.scaling &&
      (verify_target_region cfg (enterFailover s) toR r.verification_polls).1) = false)
    (hrb1 : r.rollback_dns = true) (hrb2 : r.rollback_cloudfront = true) :
    (perform_failover cfg s fromR toR reason eid r).1 = false ∧
    (perform_failover cfg s fromR toR reason eid r).2.1.current_active_region = fromR ∧
    ((perform_failover cfg s fromR toR reason eid r).2.1.region_health fromR).status
        = .active ∧
    (∀ x, x ≠ fromR →
      (perform_failover cfg s fromR toR reason eid r).2.1.region_health x
        = (verify_target_region cfg (enterFailover s) toR
            r.verification_polls).2.region_health x) ∧
    (∀ x, x ≠ fromR → x ≠ toR →
      (perform_failover cfg s fromR toR reason eid r).2.1.region_health x
        = s.region_health x) ∧
    (perform_failover cfg s fromR toR reason eid r).2.1.failover_events
        = s.failover_events ++ [⟨eid, fromR, toR, reason, false, true⟩] ∧
    (perform_failover cfg s fromR toR reason eid r).2.2
        = [.updateDnsRecords fromR toR, .updateCloudfrontOrigins fromR toR,
           .scaleUpTargetRegion toR, .verifyTargetRegion toR,
           .updateDnsRecords toR fromR, .updateCloudfrontOrigins toR fromR] ∧
    ((perform_failover cfg s fromR toR reason eid r).2.2.filter isScaleAction)
        = [.scaleUpTargetRegion toR] := by
  have hperf : perform_failover cfg s fromR toR reason eid r
      = finishFailover cfg (enterFailover s) fromR toR reason eid r := by
    simp [perform_failover, hbusy]
  have hother : ∀ x, x ≠ fromR →
      (perform_failover cfg s fromR toR reason eid r).2.1.region_health x
        = (verify_target_region cfg (enterFailover s) toR
            r.verification_polls).2.region_health x := by
    intro x hx
    rw [hperf]
    unfold finishFailover rollback_failover
    simp [hfail, hrb1, hrb2, setStatus, hx]
  refine ⟨?_, ?_, ?_, hother, ?_, ?_, ?_, ?_⟩
  · rw [hperf]
    unfold finishFailover
    simp [hfail]
  · rw [hperf]
    unfold finishFailover rollback_failover
    simp [hfail, hrb1, hrb2]
  · rw [hperf]
    unfold finishFailover rollback_failover
    simp [hfail, hrb1, hrb2, setStatus]
  · intro x hx hxt
    rw [hother x hx]
    rw [verify_target_region_health_other cfg (enterFailover s) toR
      r.verification_polls x hxt]
    exact congrFun (enterFailover_region_health s) x
  · rw [hperf]
    unfold finishFailover
    simp [hfail, rollback_failover_events, verify_target_region_events,
      enterFailover_events]
  · rw [hperf]
    unfold finishFailover rollback_failover
    simp [hfail, hrb1, hrb2]
  · rw [hperf]
    unfold finishFailover rollback_failover
    simp [hfail, hrb1, hrb2, isScaleAction]

/-- Witness for C3 at concrete inputs: the verification poll finds
the target unhealthy, rollback succeeds. -/
theorem claim3_rollback_witness :
    (perform_failover cfg0 (initState cfg0) "us-east-1" "us-west-2" "why" "e1"
        verifyFailSteps).1 = false ∧
    (perform_failover cfg0 (initState cfg0) "us-east-1" "us-west-2" "why" "e1"
        verifyFailSteps).2.1.current_active_region = "us-east-1" ∧
    ((perform_failover cfg0 (initState cfg0) "us-east-1" "us-west-2" "why" "e1"
        verifyFailSteps).2.1.region_health "eu-west-1")
        = (initState cfg0).region_health "eu-west-1" ∧
    ((perform_failover cfg0 (initState cfg0) "us-east-1" "us-west-2" "why" "e1"
        verifyFailSteps).2.2.filter isScaleAction) = [.scaleUpTargetRegion "us-west-2"] := by
  have h := claim3_rollback cfg0 (initState cfg0) "us-east-1" "us-west-2" "why" "e1"
    verifyFailSteps rfl (by decide) rfl rfl
  exact ⟨h.1, h.2.1, h.2.2.2.2.1 "eu-west-1" (by decide) (by decide), h.2.2.2.2.2.2.2⟩

/-- Counterexample to C3 as stated: when the source region entered the
attempt with status `FAILING_OVER` (the normal monitor-loop path), a
failed orchestration with successful rollback leaves it `ACTIVE`, not
at its pre-attempt status. -/
theorem claim3_status_counterexample :
    ((failingOverPrimaryState.region_health "us-east-1").status = .failingOver) ∧
    (((perform_failover cfg0 failingOverPrimaryState "us-east-1" "us-west-2" "why" "e1"
        verifyFailSteps).2.1.region_health "us-east-1").status = .active) ∧
    FailoverStatus.active ≠ .failingOver := by
  decide

/-- C10: whatever region failover-target selection returns is one of
the configured secondary regions, and is therefore never the
configured primary region (whenever, as in the constructor's intended
use, the primary is not also listed as a secondary) — traffic never
automatically fails back to the primary. -/
theorem claim10_secondary_only (cfg : Config) (s : MState) (r : String)
    (h : select_best_failover_region cfg s = some r) :
    r ∈ cfg.secondary_regions ∧
    (cfg.primary_region ∉ cfg.secondary_regions → r ≠ cfg.primary_region) := by
  have hmem := select_mem_available cfg s r h
  have hsec : r ∈ cfg.secondary_regions := List.mem_of_mem_filter hmem
  exact ⟨hsec, fun hp hrp => hp (hrp ▸ hsec)⟩

/-- Witness for C10 at a concrete state where selection succeeds. -/
theorem claim10_secondary_only_witness :
    "us-west-2" ∈ cfg0.secondary_regions ∧
    (cfg0.primary_region ∉ cfg0.secondary_regions → "us-west-2" ≠ cfg0.primary_region) :=
  claim10_secondary_only cfg0 (initState cfg0) "us-west-2" (by decide)

/-- C2 (amended): selection returns the head of the candidate list —
*secondary* regions with status `STANDBY` or `ACTIVE` and health score
at least the threshold — sorted stably by health score descending then
response latency ascending.  Consequently the selected region is a
candidate, and it is key-optimal: every other candidate has either a
strictly lower health score, or an equal health score and a response
time no smaller than the selected one (the deterministic tie-break). -/
theorem claim2_selection (cfg : Config) (s : MState) (r : String)
    (h : select_best_failover_region cfg s = some r) :
    r ∈ availableRegions cfg s ∧
    r ∈ cfg.secondary_regions ∧
    ((s.region_health r).status = .standby ∨ (s.region_health r).status = .active) ∧
    cfg.health_threshold ≤ (s.region_health r).health_score ∧
    ∀ x ∈ availableRegions cfg s,
      (s.region_health x).health_score < (s.region_health r).health_score ∨
        ((s.region_health r).health_score = (s.region_health x).health_score ∧
          selKeyLE.rtLE (s.region_health r).response_time
            (s.region_health x).response_time = true) := by
  have hmem := select_mem_available cfg s r h
  have hpred := List.mem_filter.mp hmem
  have hp2 := of_decide_eq_true hpred.2
  refine ⟨hmem, hpred.1, hp2.1, hp2.2, fun x hx => ?_⟩
  have := select_optimal cfg s r h x hx
  rwa [selKeyLE_iff] at this

/-- Witness for C2: the spec's tie-break scenario — `B` (health 0.9,
latency 0.2 s) beats `C` (health 0.9, latency 0.5 s). -/
theorem claim2_selection_witness :
    "B" ∈ availableRegions tieCfg tieState ∧
    "B" ∈ tieCfg.secondary_regions ∧
    ((tieState.region_health "B").status = .standby ∨
      (tieState.region_health "B").status = .active) ∧
    tieCfg.health_threshold ≤ (tieState.region_health "B").health_score ∧
    ∀ x ∈ availableRegions tieCfg tieState,
      (tieState.region_health x).health_score < (tieState.region_health "B").health_score ∨
        ((tieState.region_health "B").health_score
            = (tieState.region_health x).health_score ∧
          selKeyLE.rtLE (tieState.region_health "B").response_time
            (tieState.region_health x).response_time = true) :=
  claim2_selection tieCfg tieState "B" (by decide)

/-- Counterexample to C2 as stated: the candidate set is *not*
"exactly the regions whose status is STANDBY/ACTIVE with health ≥
threshold" — the source filters the secondary regions only.  Here the
primary is a healthy `STANDBY` region (it satisfies the claimed
candidate predicate, and the claim-worded all-regions selection would
return it), yet the source's selection returns `none`. -/
theorem claim2_candidate_set_counterexample :
    ((standbyPrimaryState.region_health "us-east-1").status = .standby) ∧
    cfg0.health_threshold ≤ (standbyPrimaryState.region_health "us-east-1").health_score ∧
    select_best_failover_region_allRegions cfg0 standbyPrimaryState = some "us-east-1" ∧
    select_best_failover_region cfg0 standbyPrimaryState = none := by
  decide

/-- C4 (amended): when the candidate set is empty, selection returns
`None` (the spec-worded raising variant would be an error — the
source has no exception, it logs and returns `None`); the monitor tick
performs no failover (no outcome, no collaborator actions), leaves the
state exactly as the health pass produced it — in particular no
region's status is changed by the selection attempt, no event is
appended, the active-region pointer is unchanged — and monitoring
continues (`is_monitoring` is untouched). -/
theorem claim4_no_candidate (cfg : Config) (s : MState) (inputs : String → CheckInput)
    (reason eid : String) (r : StepResults)
    (h : availableRegions cfg (updateAllRegions cfg s inputs) = []) :
    select_best_failover_region cfg (updateAllRegions cfg s inputs) = none ∧
    select_best_failover_region_raising cfg (updateAllRegions cfg s inputs)
        = .error .noEligibleCandidate ∧
    (monitor_loop_tick cfg s inputs reason eid r).state = updateAllRegions cfg s inputs ∧
    (monitor_loop_tick cfg s inputs reason eid r).outcome = none ∧
    (monitor_loop_tick cfg s inputs reason eid r).actions = [] ∧
    (monitor_loop_tick cfg s inputs reason eid r).state.failover_events
        = s.failover_events ∧
    (monitor_loop_tick cfg s inputs reason eid r).state.is_monitoring = s.is_monitoring ∧
    (monitor_loop_tick cfg s inputs reason eid r).state.current_active_region
        = s.current_active_region := by
  have hsel : select_best_failover_region cfg (updateAllRegions cfg s inputs) = none := by
    unfold select_best_failover_region
    rw [h]
    rfl
  have hall : (monitor_loop_tick cfg s inputs reason eid r).state
        = updateAllRegions cfg s inputs ∧
      (monitor_loop_tick cfg s inputs reason eid r).outcome = none ∧
      (monitor_loop_tick cfg s inputs reason eid r).actions = [] := by
    unfold monitor_loop_tick
    dsimp only
    split
    · rw [hsel]
      exact ⟨rfl, rfl, rfl⟩
    · exact ⟨rfl, rfl, rfl⟩
  obtain ⟨hstate, houtcome, hacts⟩ := hall
  refine ⟨hsel, by simp [select_best_failover_region_raising, hsel], hstate, houtcome,
    hacts, ?_, ?_, ?_⟩
  · rw [hstate]
    exact updateAllRegions_events cfg s inputs
  · rw [hstate]
    exact updateAllRegions_is_monitoring cfg s inputs
  · rw [hstate]
    exact updateAllRegions_current_active cfg s inputs

/-- Witness for C4: all regions report all subsystems down, so the
candidate set after the health pass is empty. -/
theorem claim4_no_candidate_witness :
    select_best_failover_region cfg0 (updateAllRegions cfg0 (initState cfg0) allBadInputs)
        = none ∧
    select_best_failover_region_raising cfg0
        (updateAllRegions cfg0 (initState cfg0) allBadInputs)
        = .error .noEligibleCandidate ∧
    (monitor_loop_tick cfg0 (initState cfg0) allBadInputs "why" "e1" allOkSteps).state
        = updateAllRegions cfg0 (initState cfg0) allBadInputs ∧
    (monitor_loop_tick cfg0 (initState cfg0) allBadInputs "why" "e1" allOkSteps).outcome
        = none ∧
    (monitor_loop_tick cfg0 (initState cfg0) allBadInputs "why" "e1" allOkSteps).actions
        = [] ∧
    (monitor_loop_tick cfg0 (initState cfg0) allBadInputs "why" "e1"
        allOkSteps).state.failover_events = (initState cfg0).failover_events ∧
    (monitor_loop_tick cfg0 (initState cfg0) allBadInputs "why" "e1"
        allOkSteps).state.is_monitoring = (initState cfg0).is_monitoring ∧
    (monitor_loop_tick cfg0 (initState cfg0) allBadInputs "why" "e1"
        allOkSteps).state.current_active_region = (initState cfg0).current_active_region :=
  claim4_no_candidate cfg0 (initState cfg0) allBadInputs "why" "e1" allOkSteps (by decide)

/-- Counterexample to C4 as stated: on an empty candidate set the
source's selection does not raise anything — `NoHealthyTargetError`
exists nowhere in the source — it returns the ordinary value `none`
(and the monitor loop logs and moves on); only the spec-worded
variant produces the error value the claim demands. -/
theorem claim4_raise_counterexample :
    availableRegions cfg0 (updateAllRegions cfg0 (initState cfg0) allBadInputs) = [] ∧
    select_best_failover_region cfg0 (updateAllRegions cfg0 (initState cfg0) allBadInputs)
        = none ∧
    select_best_failover_region_raising cfg0
        (updateAllRegions cfg0 (initState cfg0) allBadInputs)
        = .error .noEligibleCandidate := by
  decide

/-- C1 (amended): in every monitoring tick, a failover attempt is
initiated for the active region exactly when, after the health pass,
the active region's consecutive-failure counter is at least
`consecutive_failures_threshold` **or** its fresh health score is
below `health_threshold`.  The response-time threshold plays no role
in initiating failover (it only influences the status that
`check_region_health` records). -/
theorem claim1_trigger_iff (cfg : Config) (s : MState) (inputs : String → CheckInput)
    (reason eid : String) (r : StepResults)
    (hnd : cfg.all_regions.Nodup)
    (hmem : s.current_active_region ∈ cfg.all_regions) :
    (monitor_loop_tick cfg s inputs reason eid r).triggered = true ↔
      (cfg.consecutive_failures_threshold
          ≤ freshConsec cfg s inputs s.current_active_region ∨
        (freshHealth cfg s inputs s.current_active_region).health_score
          < cfg.health_threshold) := by
  rw [tick_triggered, updateAllRegions_current_active cfg s inputs,
    updateAllRegions_consec cfg s inputs s.current_active_region hmem hnd,
    updateAllRegions_region_health cfg s inputs s.current_active_region hmem hnd]

/-- Witness for C1: the active region reports all subsystems down, so
the tick initiates a failover. -/
theorem claim1_trigger_iff_witness :
    (monitor_loop_tick cfg0 (initState cfg0) badActiveInputs "why" "e1"
        allOkSteps).triggered = true ↔
      (cfg0.consecutive_failures_threshold
          ≤ freshConsec cfg0 (initState cfg0) badActiveInputs
              (initState cfg0).current_active_region ∨
        (freshHealth cfg0 (initState cfg0) badActiveInputs
            (initState cfg0).current_active_region).health_score
          < cfg0.health_threshold) :=
  claim1_trigger_iff cfg0 (initState cfg0) badActiveInputs "why" "e1" allOkSteps
    (by decide) (by decide)

/-- Counterexample to C1 as stated: the active region's last response
latency (10 s) exceeds `response_time_threshold` (5 s) while its
health score is 1 and its consecutive-failure counter is 0 — the
claim's three-way disjunction holds, yet the monitor loop initiates no
failover attempt (its trigger tests only the counter and the health
score). -/
theorem claim1_latency_counterexample :
    (monitor_loop_tick cfg0 (initState cfg0) slowActiveInputs "why" "e1"
        allOkSteps).triggered = false ∧
    rtExceeds (freshHealth cfg0 (initState cfg0) slowActiveInputs
        "us-east-1").response_time cfg0.response_time_threshold = true ∧
    cfg0.health_threshold
        ≤ (freshHealth cfg0 (initState cfg0) slowActiveInputs "us-east-1").health_score ∧
    freshConsec cfg0 (initState cfg0) slowActiveInputs "us-east-1" = 0 ∧
    (initState cfg0).current_active_region = "us-east-1" ∧
    (monitor_loop_tick cfg0 (initState cfg0) slowActiveInputs "why" "e1"
        allOkSteps).state.failover_events = [] := by
  decide

/-- C6 (amended): within a tick the health pass sets every region's
consecutive-failure counter to 0 on a healthy check and to its
previous value plus 1 on an unhealthy check (`freshConsec`), and
nothing else changes an inactive region's counter; the active
region's counter is additionally reset to 0 when the tick performs a
*successful failover* — the one decrease not caused by a healthy
check — and otherwise keeps its health-pass value.  No decay with
time exists anywhere. -/
theorem claim6_counter_update (cfg : Config) (s : MState) (inputs : String → CheckInput)
    (reason eid : String) (r : StepResults) (hnd : cfg.all_regions.Nodup) :
    (∀ x ∈ cfg.all_regions, x ≠ s.current_active_region →
      (monitor_loop_tick cfg s inputs reason eid r).state.consecutive_failures x
        = freshConsec cfg s inputs x) ∧
    ((monitor_loop_tick cfg s inputs reason eid r).outcome = some true →
      (monitor_loop_tick cfg s inputs reason eid r).state.consecutive_failures
          s.current_active_region = 0) ∧
    (s.current_active_region ∈ cfg.all_regions →
      (monitor_loop_tick cfg s inputs reason eid r).outcome ≠ some true →
      (monitor_loop_tick cfg s inputs reason eid r).state.consecutive_failures
          s.current_active_region
        = freshConsec cfg s inputs s.current_active_region) := by
  have hca := updateAllRegions_current_active cfg s inputs
  refine ⟨?_, ?_, ?_⟩
  · intro x hx hxa
    rw [tick_consec, hca, if_neg (fun hc => hxa hc.2)]
    exact updateAllRegions_consec cfg s inputs x hx hnd
  · intro hout
    rw [tick_consec, hca, if_pos ⟨hout, rfl⟩]
  · intro hmem hout
    rw [tick_consec, hca, if_neg (fun hc => hout hc.1)]
    exact updateAllRegions_consec cfg s inputs s.current_active_region hmem hnd

/-- Witness for C6: a tick with no successful failover leaves the
active region's counter at its health-pass value. -/
theorem claim6_counter_update_witness :
    (monitor_loop_tick cfg0 (initState cfg0) slowActiveInputs "why" "e1"
        allOkSteps).state.consecutive_failures (initState cfg0).current_active_region
      = freshConsec cfg0 (initState cfg0) slowActiveInputs
          (initState cfg0).current_active_region :=
  (claim6_counter_update cfg0 (initState cfg0) slowActiveInputs "why" "e1" allOkSteps
    (by decide)).2.2 (by decide) (by decide)

/-- Counterexample to C6 as stated: the active region's counter stood
at 2 and the tick's health check for it was unhealthy, so by the claim
the counter must become 3 — but the tick performed a successful
failover and reset it to 0: a decrease caused by something other than
a healthy check. -/
theorem claim6_reset_counterexample :
    twoFailuresState.consecutive_failures "us-east-1" = 2 ∧
    (freshHealth cfg0 twoFailuresState badActiveInputs "us-east-1").health_score
        < cfg0.health_threshold ∧
    freshConsec cfg0 twoFailuresState badActiveInputs "us-east-1" = 2 + 1 ∧
    (monitor_loop_tick cfg0 twoFailuresState badActiveInputs "why" "e1"
        allOkSteps).outcome = some true ∧
    (monitor_loop_tick cfg0 twoFailuresState badActiveInputs "why" "e1"
        allOkSteps).state.consecutive_failures "us-east-1" = 0 ∧
    (0 : ℕ) ≠ 2 + 1 := by
  decide

end AwsDnsOutage
